import Mathlib

/-!
Verification of the Travel Sorter report generator (`TravelSorter.py`).

The development shallowly embeds the processing block of the script:
header detection for CSV/xlsx uploads, the date-normalization step
(`pd.to_datetime` over the `Arrival Date` / `Departure Date` columns),
the per-event arrival/departure filters, the name-based pairing loop and
the `format_travel_time` helper.  Strings are manipulated through
explicit character-list functions so that every definition evaluates in
the kernel.
-/

namespace TravelSorter

/-! ### Character-list string helpers -/

/-- Split a character list at every occurrence of `c`
(the embedding of Python `str.split(c)`). -/
def splitOnChar (c : Char) : List Char → List (List Char)
  | [] => [[]]
  | x :: xs =>
    match splitOnChar c xs with
    | [] => [[]]
    | y :: ys => if x = c then [] :: y :: ys else (x :: y) :: ys

/-- The longest initial segment not containing `c`; this is
`str.split(c)[0]`, the first field of the split. -/
def takeUntilChar (c : Char) : List Char → List Char
  | [] => []
  | x :: xs => if x = c then [] else x :: takeUntilChar c xs

/-- Python `str.strip()`: drop whitespace from both ends. -/
def trimChars (l : List Char) : List Char :=
  ((l.dropWhile Char.isWhitespace).reverse.dropWhile Char.isWhitespace).reverse

/-- Python `str.startswith(pat)` as a Boolean test on strings. -/
def strStartsWith (s pat : String) : Bool :=
  go s.data pat.data
where
  go : List Char → List Char → Bool
    | _, [] => true
    | [], _ :: _ => false
    | x :: xs, y :: ys => x = y && go xs ys

/-- The decimal digit character for `n < 10`. -/
def digitChar (n : Nat) : Char := Char.ofNat (48 + n)

/-- Decimal digits of `n`, most significant first (fuelled recursion). -/
def natCharsAux : Nat → Nat → List Char
  | 0, _ => []
  | fuel + 1, n =>
    if n < 10 then [digitChar n]
    else natCharsAux fuel (n / 10) ++ [digitChar (n % 10)]

/-- Decimal representation of a natural number as characters. -/
def natChars (n : Nat) : List Char := natCharsAux (n + 1) n

/-- Decimal representation of a natural number as a string. -/
def natStr (n : Nat) : String := ⟨natChars n⟩

/-- Two-digit zero-padded decimal string (the `%d`, `%I`, `%M`
field width of `strftime` and of `str(Timestamp)`). -/
def pad2 (n : Nat) : String := ⟨if n < 10 then '0' :: natChars n else natChars n⟩

/-- Four-digit zero-padded year used by `str(Timestamp)`. -/
def pad4 (n : Nat) : String :=
  ⟨if n < 10 then '0' :: '0' :: '0' :: natChars n
    else if n < 100 then '0' :: '0' :: natChars n
    else if n < 1000 then '0' :: natChars n
    else natChars n⟩

/-- Parse a non-empty all-digit character list into a number. -/
def digitsToNat? (l : List Char) : Option Nat :=
  if l ≠ [] ∧ l.all Char.isDigit then
    some (l.foldl (fun a c => a * 10 + (c.toNat - 48)) 0)
  else none

/-! ### Calendar dates and timestamps -/

/-- A calendar date, the value of a normalized `Arrival Date` /
`Departure Date` cell with the time-of-day stripped (`.dt.date`). -/
structure Date where
  year : Nat
  month : Nat
  day : Nat
deriving DecidableEq

/-- Linearize a date for comparisons. -/
def Date.toKey (d : Date) : Nat := d.year * 10000 + d.month * 100 + d.day

/-- Date comparison `a <= b` (the pandas `date` total order). -/
def Date.leb (a b : Date) : Bool := Nat.ble a.toKey b.toKey

/-- A pandas `Timestamp`: a date together with a time of day.  This is
the value stored in the normalized date columns. -/
structure DateTime where
  date : Date
  hour : Nat
  minute : Nat
  second : Nat
deriving DecidableEq

/-- Gregorian leap-year test. -/
def isLeap (y : Nat) : Bool := (y % 4 = 0 && y % 100 ≠ 0) || y % 400 = 0

/-- Days in a month of a given year. -/
def daysInMonth (y m : Nat) : Nat :=
  if m = 2 then (if isLeap y then 29 else 28)
  else if m = 4 ∨ m = 6 ∨ m = 9 ∨ m = 11 then 30
  else 31

/-- Days in the years strictly before year `y` (proleptic Gregorian). -/
def daysBeforeYear (y : Nat) : Nat :=
  365 * (y - 1) + (y - 1) / 4 - (y - 1) / 100 + (y - 1) / 400

/-- Day of year (1-based) for a month/day pair. -/
def dayOfYear (y m d : Nat) : Nat :=
  (List.range (m - 1)).foldl (fun a i => a + daysInMonth y (i + 1)) 0 + d

/-- Day of week, `0` = Sunday … `6` = Saturday (0001-01-01 is a Monday). -/
def dayOfWeek (d : Date) : Nat :=
  (daysBeforeYear d.year + dayOfYear d.year d.month d.day) % 7

/-- English weekday name, the `%A` field of `strftime`. -/
def weekdayName (d : Date) : String :=
  (["Sunday", "Monday", "Tuesday", "Wednesday", "Thursday", "Friday",
    "Saturday"].getD (dayOfWeek d) "")

/-- English month name, the `%B` field of `strftime`. -/
def monthName (m : Nat) : String :=
  (["January", "February", "March", "April", "May", "June", "July",
    "August", "September", "October", "November", "December"].getD (m - 1) "")

/-- `str()` of a date: `YYYY-MM-DD`. -/
def dateToStr (d : Date) : String :=
  pad4 d.year ++ "-" ++ pad2 d.month ++ "-" ++ pad2 d.day

/-- The `HH:MM:SS` part of `str()` of a pandas `Timestamp`. -/
def timeOfDayStr (dt : DateTime) : String :=
  pad2 dt.hour ++ ":" ++ pad2 dt.minute ++ ":" ++ pad2 dt.second

/-- `str()` of a pandas `Timestamp`: `YYYY-MM-DD HH:MM:SS`. -/
def dateTimeToStr (dt : DateTime) : String :=
  dateToStr dt.date ++ " " ++ timeOfDayStr dt

/-- Parse a `YYYY-MM-DD` (or `YYYY-M-D`) character list into a valid
calendar date. -/
def parseDateChars (l : List Char) : Option Date :=
  match splitOnChar '-' l with
  | [ys, ms, ds] => do
    let y ← digitsToNat? ys
    let m ← digitsToNat? ms
    let d ← digitsToNat? ds
    if 1 ≤ m ∧ m ≤ 12 ∧ 1 ≤ d ∧ d ≤ daysInMonth y m then
      some ⟨y, m, d⟩
    else none
  | _ => none

/-- Parse a `HH:MM` or `HH:MM:SS` character list into a time of day. -/
def parseTimeChars (l : List Char) : Option (Nat × Nat × Nat) :=
  match splitOnChar ':' l with
  | [hs, ms] => do
    let h ← digitsToNat? hs
    let m ← digitsToNat? ms
    if h ≤ 23 ∧ m ≤ 59 then some (h, m, 0) else none
  | [hs, ms, ss] => do
    let h ← digitsToNat? hs
    let m ← digitsToNat? ms
    let s ← digitsToNat? ss
    if h ≤ 23 ∧ m ≤ 59 ∧ s ≤ 59 then some (h, m, s) else none
  | _ => none

/-- Models `pd.to_datetime` on one cell for the ISO-style inputs the
report pipeline produces: `YYYY-MM-DD`, optionally followed by a space
and `HH:MM` or `HH:MM:SS`.  Returns `none` where pandas raises. -/
def pdParseDateTime (s : String) : Option DateTime :=
  match splitOnChar ' ' s.data with
  | [d] => (parseDateChars d).map fun dd => ⟨dd, 0, 0, 0⟩
  | [d, t] => do
    let dd ← parseDateChars d
    let (h, m, sec) ← parseTimeChars t
    some ⟨dd, h, m, sec⟩
  | _ => none

/-- 12-hour clock value of an hour, the `%I` field of `strftime`. -/
def hour12 (h : Nat) : Nat := if h % 12 = 0 then 12 else h % 12

/-- Lower-cased meridiem: the `%p` field after the
`.replace("AM", "am").replace("PM", "pm")` in `format_travel_time`
(weekday and month names contain no `AM`/`PM`, so the replacement only
rewrites the meridiem token). -/
def meridiemLower (h : Nat) : String := if h < 12 then "am" else "pm"

/-- `strftime("%A %B %d %I:%M %p")` with the meridiem lower-cased. -/
def strftimeTravel (dt : DateTime) : String :=
  weekdayName dt.date ++ " " ++ monthName dt.date.month ++ " "
    ++ pad2 dt.date.day ++ " " ++ pad2 (hour12 dt.hour) ++ ":"
    ++ pad2 dt.minute ++ " " ++ meridiemLower dt.hour

/-- `format_travel_time(date_val, time_val)` (`TravelSorter.py` 62-73):
`d_str = str(date_val).split(' ')[0]`, parse `f"{d_str} {t_str}"` with
`pd.to_datetime` and format it; on any parse failure fall back to
`f"{date_val} {time_val}"`. -/
def formatTravelTime (dateVal : DateTime) (timeVal : String) : String :=
  let dStr : String := ⟨takeUntilChar ' ' (dateTimeToStr dateVal).data⟩
  match pdParseDateTime (dStr ++ " " ++ timeVal) with
  | some dt => strftimeTravel dt
  | none => dateTimeToStr dateVal ++ " " ++ timeVal

/-! ### Data model -/

/-- One row of the loaded table after date normalization: the columns
the processing block reads. -/
structure TravelRecord where
  travelerName : String
  arrivalCity : String
  arrivalDate : DateTime
  arrivalTime : String
  departureCityName : String
  departureDate : DateTime
  departureTime : String
  airlineCode : String
  flightNumber : String
deriving DecidableEq

/-- One row of the loaded table before date normalization: the date
columns are still raw strings. -/
structure RawRecord where
  travelerName : String
  arrivalCity : String
  arrivalDate : String
  arrivalTime : String
  departureCityName : String
  departureDate : String
  departureTime : String
  airlineCode : String
  flightNumber : String
deriving DecidableEq

/-- One row of the editable events table. -/
structure EventDefinition where
  eventName : String
  cities : String
  startDate : Date
  endDate : Date
deriving DecidableEq

/-- One entry appended to `report_data` (`TravelSorter.py` 191-198). -/
structure ReportRow where
  name : String
  homeCity : String
  arrivalTime : String
  arrivalFlight : String
  departureTime : String
  departureFlight : String
deriving DecidableEq

/-- The dict literal appended to `report_data`, as key/value pairs in
source order. -/
def ReportRow.toPairs (r : ReportRow) : List (String × String) :=
  [("Name", r.name), ("Home City", r.homeCity),
   ("Arrival Time", r.arrivalTime), ("Arrival Flight", r.arrivalFlight),
   ("Departure Time", r.departureTime),
   ("Departure Flight", r.departureFlight)]

/-! ### Event matcher -/

/-- `target_cities = [c.strip() for c in str(event['Cities']).split(',')]`. -/
def targetCities (e : EventDefinition) : List String :=
  (splitOnChar ',' e.cities.data).map fun l => ⟨trimChars l⟩

/-- The arrivals filter predicate (`TravelSorter.py` 152-156):
`Arrival City` in the city list and `Arrival Date` (date part) within
the inclusive event window. -/
def arrivalMatches (e : EventDefinition) (r : TravelRecord) : Bool :=
  (targetCities e).contains r.arrivalCity
    && Date.leb e.startDate r.arrivalDate.date
    && Date.leb r.arrivalDate.date e.endDate

/-- The departures filter predicate (`TravelSorter.py` 160-164). -/
def departureMatches (e : EventDefinition) (r : TravelRecord) : Bool :=
  (targetCities e).contains r.departureCityName
    && Date.leb e.startDate r.departureDate.date
    && Date.leb r.departureDate.date e.endDate

/-- The body of the per-arrival loop (`TravelSorter.py` 171-198): look
the traveler up in the filtered departures, use the first hit
(`iloc[0]`) or the no-return sentinels. -/
def mkReportRow (departures : List TravelRecord) (row : TravelRecord) :
    ReportRow :=
  let arrFormatted := formatTravelTime row.arrivalDate row.arrivalTime
  let arrFlight := row.airlineCode ++ " " ++ row.flightNumber
  match departures.filter (fun d => d.travelerName == row.travelerName) with
  | depRow :: _ =>
    { name := row.travelerName, homeCity := row.departureCityName,
      arrivalTime := arrFormatted, arrivalFlight := arrFlight,
      departureTime := formatTravelTime depRow.departureDate
        depRow.departureTime,
      departureFlight := depRow.airlineCode ++ " " ++ depRow.flightNumber }
  | [] =>
    { name := row.travelerName, homeCity := row.departureCityName,
      arrivalTime := arrFormatted, arrivalFlight := arrFlight,
      departureTime := "No Return Flight", departureFlight := "-" }

/-- The `for _, row in arrivals.iterrows()` loop: one report row
appended per arrival, in order. -/
def buildReport (departures : List TravelRecord) :
    List TravelRecord → List ReportRow
  | [] => []
  | row :: rest => mkReportRow departures row :: buildReport departures rest

/-- One iteration of the per-event loop (`TravelSorter.py` 139-204):
filter arrivals and departures, skip the event (`continue`, no output
section) when the arrivals are empty, otherwise emit a section with the
event name and the built report rows. -/
def renderEvent (e : EventDefinition) (table : List TravelRecord) :
    Option (String × List ReportRow) :=
  let arrivals := table.filter (arrivalMatches e)
  let departures := table.filter (departureMatches e)
  if arrivals.isEmpty then none
  else some (e.eventName, buildReport departures arrivals)

/-- The report rows the matcher produces for one event (empty when the
event is skipped). -/
def matchEvent (e : EventDefinition) (table : List TravelRecord) :
    List ReportRow :=
  ((renderEvent e table).map Prod.snd).getD []

/-! ### Date normalization and the processing pipeline -/

/-- `df['Arrival Date'] = pd.to_datetime(df['Arrival Date'])` and the
same for `Departure Date` (`TravelSorter.py` 131-133): `pd.to_datetime`
converts every cell and raises on the first unparseable one; the
exception propagates to the module-level `except`, which reports the
error and ends the run. -/
def toDatetimeCell (s : String) : Except String DateTime :=
  match pdParseDateTime s with
  | some dt => Except.ok dt
  | none =>
    Except.error ("Unknown datetime string format, unable to parse: " ++ s)

/-- Normalize the two date columns of every row; the first failing cell
aborts the whole conversion, as `pd.to_datetime` does. -/
def normalizeDates (rows : List RawRecord) :
    Except String (List TravelRecord) :=
  rows.mapM fun r => do
    let ad ← toDatetimeCell r.arrivalDate
    let dd ← toDatetimeCell r.departureDate
    Except.ok
      { travelerName := r.travelerName, arrivalCity := r.arrivalCity,
        arrivalDate := ad, arrivalTime := r.arrivalTime,
        departureCityName := r.departureCityName, departureDate := dd,
        departureTime := r.departureTime, airlineCode := r.airlineCode,
        flightNumber := r.flightNumber }

/-- The processing block under the outer `try` (`TravelSorter.py`
96-207): normalize the date columns, then render every event section.
`Except.error` models the run halting in the module-level `except` with
`st.error(f"An error occurred: {e}")` and producing no report. -/
def processTable (events : List EventDefinition) (rows : List RawRecord) :
    Except String (List (String × List ReportRow)) := do
  let table ← normalizeDates rows
  Except.ok (events.filterMap fun e => renderEvent e table)

/-! ### File loaders -/

/-- The header-scan loop shared by both loaders: index of the first row
satisfying the test. -/
def findHeaderIdx (p : α → Bool) : List α → Option Nat
  | [] => none
  | x :: xs => if p x then some 0 else (findHeaderIdx p xs).map (· + 1)

/-- CSV header detection (`TravelSorter.py` 102-110): the first line
with `line.startswith("Traveler Name")`. -/
def findCsvHeader (lines : List String) : Option Nat :=
  findHeaderIdx (fun l => strStartsWith l "Traveler Name") lines

/-- The CSV branch of the loader (`TravelSorter.py` 102-115): find the
header line or halt (`st.error` / `st.stop`), then skip the rows above
it (`skiprows=header_row_index`). -/
def loadCsv (lines : List String) : Except String (Nat × List String) :=
  match findCsvHeader lines with
  | some i => Except.ok (i, lines.drop i)
  | none => Except.error "Could not find 'Traveler Name' in the CSV."

/-- xlsx header detection (`TravelSorter.py` 118-121): the first row
whose first cell, as a string, equals `"Traveler Name"` exactly. -/
def findXlsxHeader (rows : List (List String)) : Option Nat :=
  findHeaderIdx (fun row => row.headD "" == "Traveler Name") rows

/-- The xlsx branch of the loader (`TravelSorter.py` 117-126). -/
def loadXlsx (rows : List (List String)) :
    Except String (Nat × List (List String)) :=
  match findXlsxHeader rows with
  | some i => Except.ok (i, rows.drop i)
  | none => Except.error "Could not find 'Traveler Name' in Excel."

/-- First cell of a CSV line as the spec describes header detection:
the text before the first comma.  Stated from the spec's words (the
implementation tests a prefix of the whole line instead); used to
compare the two readings. -/
def csvFirstCellSpec (line : String) : String :=
  ⟨takeUntilChar ',' line.data⟩

/-! ### Concrete fixtures

A small event and table, following the worked example of the report
(`Dallas, Ft. Worth`, 2026-03-18 to 2026-03-24, traveler Jane Doe
arriving 2026-03-19 14:05 from Denver and returning 2026-03-22 09:15,
traveler John Smith arriving with no return flight). -/

/-- The Texas event row. -/
def evMain : EventDefinition :=
  { eventName := "Texas", cities := "Dallas, Ft. Worth",
    startDate := ⟨2026, 3, 18⟩, endDate := ⟨2026, 3, 24⟩ }

/-- Jane Doe's inbound row: arrives in Dallas within the window. -/
def recJaneArr : TravelRecord :=
  { travelerName := "Jane Doe", arrivalCity := "Dallas",
    arrivalDate := ⟨⟨2026, 3, 19⟩, 0, 0, 0⟩, arrivalTime := "14:05",
    departureCityName := "Denver",
    departureDate := ⟨⟨2026, 1, 1⟩, 0, 0, 0⟩, departureTime := "08:00",
    airlineCode := "AA", flightNumber := "100" }

/-- A second Jane Doe arrival within the window (from Chicago). -/
def recJaneArr2 : TravelRecord :=
  { travelerName := "Jane Doe", arrivalCity := "Ft. Worth",
    arrivalDate := ⟨⟨2026, 3, 21⟩, 0, 0, 0⟩, arrivalTime := "10:30",
    departureCityName := "Chicago",
    departureDate := ⟨⟨2026, 3, 25⟩, 0, 0, 0⟩, departureTime := "12:00",
    airlineCode := "AA", flightNumber := "150" }

/-- A departure row for another traveler, earlier in the table than
Jane's return rows. -/
def recBobDep : TravelRecord :=
  { travelerName := "Bob Roe", arrivalCity := "Tulsa",
    arrivalDate := ⟨⟨2026, 2, 1⟩, 0, 0, 0⟩, arrivalTime := "09:00",
    departureCityName := "Dallas",
    departureDate := ⟨⟨2026, 3, 20⟩, 0, 0, 0⟩, departureTime := "16:45",
    airlineCode := "WN", flightNumber := "42" }

/-- Jane Doe's first return row: departs Ft. Worth within the window. -/
def recJaneDep : TravelRecord :=
  { travelerName := "Jane Doe", arrivalCity := "Denver",
    arrivalDate := ⟨⟨2026, 1, 1⟩, 0, 0, 0⟩, arrivalTime := "10:00",
    departureCityName := "Ft. Worth",
    departureDate := ⟨⟨2026, 3, 22⟩, 0, 0, 0⟩, departureTime := "09:15",
    airlineCode := "AA", flightNumber := "200" }

/-- Jane Doe's second qualifying return row, later in the table. -/
def recJaneDep2 : TravelRecord :=
  { travelerName := "Jane Doe", arrivalCity := "Denver",
    arrivalDate := ⟨⟨2026, 1, 2⟩, 0, 0, 0⟩, arrivalTime := "11:00",
    departureCityName := "Dallas",
    departureDate := ⟨⟨2026, 3, 23⟩, 0, 0, 0⟩, departureTime := "17:30",
    airlineCode := "UA", flightNumber := "300" }

/-- John Smith's inbound row: arrives in Dallas, no matching return. -/
def recJohnArr : TravelRecord :=
  { travelerName := "John Smith", arrivalCity := "Dallas",
    arrivalDate := ⟨⟨2026, 3, 20⟩, 0, 0, 0⟩, arrivalTime := "11:00",
    departureCityName := "Phoenix",
    departureDate := ⟨⟨2026, 6, 1⟩, 0, 0, 0⟩, departureTime := "07:10",
    airlineCode := "DL", flightNumber := "77" }

/-- The main sample table, in upload order. -/
def mainTable : List TravelRecord :=
  [recJaneArr, recBobDep, recJaneDep, recJaneDep2, recJohnArr]

/-- The report row the matcher produces for Jane's arrival. -/
def rowJane : ReportRow :=
  mkReportRow (mainTable.filter (departureMatches evMain)) recJaneArr

/-- A table variant with two same-name qualifying arrivals. -/
def dupTable : List TravelRecord :=
  [recJaneArr, recJaneArr2, recBobDep, recJaneDep, recJaneDep2]

/-- Jane's inbound row before date normalization. -/
def rawJaneArr : RawRecord :=
  { travelerName := "Jane Doe", arrivalCity := "Dallas",
    arrivalDate := "2026-03-19", arrivalTime := "14:05",
    departureCityName := "Denver", departureDate := "2026-01-01",
    departureTime := "08:00", airlineCode := "AA", flightNumber := "100" }

/-- Jane's return row before date normalization. -/
def rawJaneDep : RawRecord :=
  { travelerName := "Jane Doe", arrivalCity := "Denver",
    arrivalDate := "2026-01-01", arrivalTime := "10:00",
    departureCityName := "Ft. Worth", departureDate := "2026-03-22",
    departureTime := "09:15", airlineCode := "AA", flightNumber := "200" }

/-- A row with a corrupt `Arrival Date` cell. -/
def rawCorrupt : RawRecord :=
  { travelerName := "Eve Error", arrivalCity := "Dallas",
    arrivalDate := "not-a-date", arrivalTime := "13:00",
    departureCityName := "Dallas", departureDate := "2026-03-21",
    departureTime := "15:00", airlineCode := "AA", flightNumber := "500" }

/-- An upload whose rows all parse. -/
def rawGoodTable : List RawRecord := [rawJaneArr, rawJaneDep]

/-- The same upload with one corrupt row inserted in the middle. -/
def rawBadTable : List RawRecord := [rawJaneArr, rawCorrupt, rawJaneDep]

/-- A CSV upload with two banner lines before the header. -/
def linesOk : List String :=
  ["Group Travel Report", "generated 2026-01-05",
   "Traveler Name,Arrival City,Arrival Date", "Jane Doe,Dallas,2026-03-19"]

/-- An xlsx upload with two banner rows before the header. -/
def xlsxOk : List (List String) :=
  [["Group Travel Report"], [],
   ["Traveler Name", "Arrival City", "Arrival Date"],
   ["Jane Doe", "Dallas", "2026-03-19"]]

/-! ### Helper lemmas -/

theorem data_append (a b : String) : (a ++ b).data = a.data ++ b.data := by
  cases a
  cases b
  rfl

theorem buildReport_eq_map (departures : List TravelRecord)
    (l : List TravelRecord) :
    buildReport departures l = l.map (mkReportRow departures) := by
  induction l with
  | nil => rfl
  | cons x xs ih => simp [buildReport, ih]

theorem matchEvent_eq_map (e : EventDefinition) (table : List TravelRecord) :
    matchEvent e table = (table.filter (arrivalMatches e)).map
      (mkReportRow (table.filter (departureMatches e))) := by
  cases h : table.filter (arrivalMatches e) with
  | nil => simp [matchEvent, renderEvent, h]
  | cons a l => simp [matchEvent, renderEvent, h, buildReport_eq_map]

theorem filter_eq_nil_of_false {α : Type} (p : α → Bool) (l : List α)
    (h : ∀ x ∈ l, p x = false) : l.filter p = [] := by
  induction l with
  | nil => rfl
  | cons x xs ih =>
    rw [List.filter_cons, h x (by simp)]
    exact ih fun y hy => h y (by simp [hy])

theorem findHeaderIdx_eq_some {α : Type} (p : α → Bool) (d : α) :
    ∀ (l : List α) (i : Nat), findHeaderIdx p l = some i →
      i < l.length ∧ p (l.getD i d) = true ∧
        ∀ k, k < i → p (l.getD k d) = false := by
  intro l
  induction l with
  | nil => intro i h; simp [findHeaderIdx] at h
  | cons x xs ih =>
    intro i h
    by_cases hp : p x = true
    · simp [findHeaderIdx, hp] at h
      subst h
      exact ⟨by simp, by simpa using hp,
        fun k hk => absurd hk (Nat.not_lt_zero k)⟩
    · have hp' : p x = false := by simpa using hp
      simp [findHeaderIdx, hp'] at h
      obtain ⟨j, hj, rfl⟩ := h
      obtain ⟨hlen, hyes, hbelow⟩ := ih j hj
      refine ⟨by simpa using Nat.succ_lt_succ hlen, by simpa using hyes, ?_⟩
      intro k hk
      cases k with
      | zero => simpa using hp'
      | succ k => simpa using hbelow k (by omega)

theorem findHeaderIdx_eq_none {α : Type} (p : α → Bool) :
    ∀ l : List α, findHeaderIdx p l = none → ∀ x ∈ l, p x = false := by
  intro l
  induction l with
  | nil => simp
  | cons x xs ih =>
    intro h y hy
    by_cases hp : p x = true
    · simp [findHeaderIdx, hp] at h
    · have hp' : p x = false := by simpa using hp
      simp [findHeaderIdx, hp'] at h
      rcases List.mem_cons.mp hy with rfl | hy2
      · exact hp'
      · exact ih h y hy2

theorem takeUntilChar_append (c : Char) (l r : List Char)
    (h : ∀ x ∈ l, x ≠ c) : takeUntilChar c (l ++ c :: r) = l := by
  induction l with
  | nil => simp [takeUntilChar]
  | cons x xs ih =>
    have hx : x ≠ c := h x (by simp)
    simp only [List.cons_append, takeUntilChar, if_neg hx]
    exact congrArg (List.cons x) (ih fun y hy => h y (by simp [hy]))

theorem digitChar_isDigit {n : Nat} (h : n < 10) :
    (digitChar n).isDigit = true := by
  interval_cases n <;> decide

theorem natCharsAux_digits :
    ∀ fuel n : Nat, ∀ c ∈ natCharsAux fuel n, c.isDigit = true := by
  intro fuel
  induction fuel with
  | zero => intro n c hc; simp [natCharsAux] at hc
  | succ fuel ih =>
    intro n c hc
    by_cases h : n < 10
    · simp [natCharsAux, h] at hc
      subst hc
      exact digitChar_isDigit h
    · simp [natCharsAux, h] at hc
      rcases hc with hc | hc
      · exact ih _ c hc
      · subst hc
        exact digitChar_isDigit (Nat.mod_lt _ (by omega))

theorem isDigit_ne_space {c : Char} (h : c.isDigit = true) : c ≠ ' ' := by
  intro he
  subst he
  exact absurd h (by decide)

theorem natChars_ne_space (n : Nat) : ∀ c ∈ natChars n, c ≠ ' ' :=
  fun c hc => isDigit_ne_space (natCharsAux_digits _ _ c hc)

theorem pad2_ne_space (n : Nat) : ∀ c ∈ (pad2 n).data, c ≠ ' ' := by
  intro c hc
  have hdata : (pad2 n).data
      = if n < 10 then '0' :: natChars n else natChars n := rfl
  rw [hdata] at hc
  by_cases h : n < 10
  · rw [if_pos h] at hc
    rcases List.mem_cons.mp hc with rfl | hc2
    · decide
    · exact natChars_ne_space n c hc2
  · rw [if_neg h] at hc
    exact natChars_ne_space n c hc

theorem pad4_ne_space (n : Nat) : ∀ c ∈ (pad4 n).data, c ≠ ' ' := by
  intro c hc
  have hdata : (pad4 n).data
      = if n < 10 then '0' :: '0' :: '0' :: natChars n
        else if n < 100 then '0' :: '0' :: natChars n
        else if n < 1000 then '0' :: natChars n
        else natChars n := rfl
  rw [hdata] at hc
  by_cases h1 : n < 10
  · rw [if_pos h1] at hc
    rcases List.mem_cons.mp hc with rfl | hc2
    · decide
    · rcases List.mem_cons.mp hc2 with rfl | hc3
      · decide
      · rcases List.mem_cons.mp hc3 with rfl | hc4
        · decide
        · exact natChars_ne_space n c hc4
  · rw [if_neg h1] at hc
    by_cases h2 : n < 100
    · rw [if_pos h2] at hc
      rcases List.mem_cons.mp hc with rfl | hc2
      · decide
      · rcases List.mem_cons.mp hc2 with rfl | hc3
        · decide
        · exact natChars_ne_space n c hc3
    · rw [if_neg h2] at hc
      by_cases h3 : n < 1000
      · rw [if_pos h3] at hc
        rcases List.mem_cons.mp hc with rfl | hc2
        · decide
        · exact natChars_ne_space n c hc2
      · rw [if_neg h3] at hc
        exact natChars_ne_space n c hc

theorem dateToStr_ne_space (d : Date) : ∀ c ∈ (dateToStr d).data, c ≠ ' ' := by
  intro c hc
  simp only [dateToStr, data_append, List.mem_append,
    show ("-" : String).data = ['-'] from rfl, List.mem_singleton] at hc
  rcases hc with (((hc | rfl) | hc) | rfl) | hc
  · exact pad4_ne_space d.year c hc
  · decide
  · exact pad2_ne_space d.month c hc
  · decide
  · exact pad2_ne_space d.day c hc

theorem takeUntil_dateTimeToStr (dt : DateTime) :
    takeUntilChar ' ' (dateTimeToStr dt).data = (dateToStr dt.date).data := by
  have h : (dateTimeToStr dt).data
      = (dateToStr dt.date).data ++ ' ' :: (timeOfDayStr dt).data := by
    simp [dateTimeToStr, data_append, show (" " : String).data = [' '] from rfl]
  rw [h, takeUntilChar_append _ _ _ (dateToStr_ne_space dt.date)]

theorem formatTravelTime_eq (dv : DateTime) (tv : String) :
    formatTravelTime dv tv =
      match pdParseDateTime (dateToStr dv.date ++ " " ++ tv) with
      | some dt => strftimeTravel dt
      | none => dateTimeToStr dv ++ " " ++ tv := by
  have hd : (⟨takeUntilChar ' ' (dateTimeToStr dv).data⟩ : String)
      = dateToStr dv.date := by
    rw [takeUntil_dateTimeToStr]
  unfold formatTravelTime
  rw [hd]

/-! ### Claim theorems -/

/-- C1: evaluation of the processing block at a failing input.  With one
corrupt `Arrival Date` cell among valid rows, the date-normalization
step (`pd.to_datetime` over the whole column) raises; the module-level
`except` ends the run with an error message and no event is processed —
the malformed row is NOT silently dropped.  Removing the corrupt row
from the same upload yields the expected report, exhibiting the
divergence from the claimed per-row recovery. -/
theorem malformedDate_halts_run :
    processTable [evMain] rawBadTable
      = Except.error
          "Unknown datetime string format, unable to parse: not-a-date"
    ∧ processTable [evMain] rawGoodTable
      = Except.ok [("Texas",
          [{ name := "Jane Doe", homeCity := "Denver",
             arrivalTime := "Thursday March 19 02:05 pm",
             arrivalFlight := "AA 100",
             departureTime := "Sunday March 22 09:15 am",
             departureFlight := "AA 200" }])] :=
  ⟨rfl, rfl⟩

/-- C2 counterexample: the matcher produces a row for the Texas event,
and that row carries neither an `Arrival Airport` nor a
`Departure Airport` field. -/
theorem reportRow_airport_fields_absent :
    ((matchEvent evMain mainTable).head?.map fun r =>
        ((r.toPairs.map Prod.fst).contains "Arrival Airport",
         (r.toPairs.map Prod.fst).contains "Departure Airport"))
      = some (false, false) := rfl

/-- C2 (amended): every ReportRow the matcher produces carries exactly
the six fields Name, Home City, Arrival Time, Arrival Flight, Departure
Time and Departure Flight; no airport fields exist. -/
theorem reportRow_fields_exact (e : EventDefinition)
    (table : List TravelRecord) (r : ReportRow)
    (h : r ∈ matchEvent e table) :
    r.toPairs.map Prod.fst
      = ["Name", "Home City", "Arrival Time", "Arrival Flight",
         "Departure Time", "Departure Flight"] := by
  rw [matchEvent_eq_map] at h
  obtain ⟨rec, hrec, rfl⟩ := List.mem_map.mp h
  simp only [mkReportRow]
  split <;> rfl

/-- C2 witness: the amended field list, at Jane's produced row. -/
theorem reportRow_fields_exact_witness :
    rowJane.toPairs.map Prod.fst
      = ["Name", "Home City", "Arrival Time", "Arrival Flight",
         "Departure Time", "Departure Flight"] :=
  reportRow_fields_exact evMain mainTable rowJane (by decide)

/-- C3: every report row an event produces originates from a table
record passing the arrivals filter: its Arrival City is in the city
list (exact string membership) and its arrival date, time of day
ignored, lies inclusively within the event window. -/
theorem reportRow_from_qualifying_arrival (e : EventDefinition)
    (table : List TravelRecord) (r : ReportRow)
    (h : r ∈ matchEvent e table) :
    ∃ rec ∈ table,
      r = mkReportRow (table.filter (departureMatches e)) rec
      ∧ (targetCities e).contains rec.arrivalCity = true
      ∧ Date.leb e.startDate rec.arrivalDate.date = true
      ∧ Date.leb rec.arrivalDate.date e.endDate = true := by
  rw [matchEvent_eq_map] at h
  obtain ⟨rec, hrec, rfl⟩ := List.mem_map.mp h
  obtain ⟨hmem, hMatch⟩ := List.mem_filter.mp hrec
  simp only [arrivalMatches, Bool.and_eq_true] at hMatch
  exact ⟨rec, hmem, rfl, hMatch.1.1, hMatch.1.2, hMatch.2⟩

/-- C3 witness: Jane's row originates from a qualifying arrival. -/
theorem reportRow_from_qualifying_arrival_witness :
    ∃ rec ∈ mainTable,
      rowJane = mkReportRow (mainTable.filter (departureMatches evMain)) rec
      ∧ (targetCities evMain).contains rec.arrivalCity = true
      ∧ Date.leb evMain.startDate rec.arrivalDate.date = true
      ∧ Date.leb rec.arrivalDate.date evMain.endDate = true :=
  reportRow_from_qualifying_arrival evMain mainTable rowJane (by decide)

/-- C4: when the arrivals filter is empty the event yields no report
rows and no output section, whatever the departures filter holds. -/
theorem empty_arrivals_no_rows (e : EventDefinition)
    (table : List TravelRecord)
    (h : table.filter (arrivalMatches e) = []) :
    matchEvent e table = [] ∧ renderEvent e table = none := by
  constructor
  · rw [matchEvent_eq_map, h]
    rfl
  · simp [renderEvent, h]

/-- C4 witness: a table whose only record qualifies as a departure but
not as an arrival produces nothing for the event. -/
theorem empty_arrivals_no_rows_witness :
    ([recJaneDep].filter (arrivalMatches evMain) = []
      ∧ [recJaneDep].filter (departureMatches evMain) = [recJaneDep])
    ∧ matchEvent evMain [recJaneDep] = []
      ∧ renderEvent evMain [recJaneDep] = none :=
  ⟨⟨by decide, by decide⟩,
    empty_arrivals_no_rows evMain [recJaneDep] (by decide)⟩

/-- C5: whichever departure record is the first name-match for an
arrival in the filtered departures (everything before it in original
table order fails the name test), that single record supplies the
departure data of the produced row, even when later records also
match. -/
theorem pairing_first_name_match (e : EventDefinition)
    (table : List TravelRecord) (rec : TravelRecord)
    (pre post : List TravelRecord) (dep : TravelRecord)
    (hsplit : table.filter (departureMatches e) = pre ++ dep :: post)
    (hpre : ∀ d ∈ pre, (d.travelerName == rec.travelerName) = false)
    (hdep : (dep.travelerName == rec.travelerName) = true)
    (hrec : rec ∈ table.filter (arrivalMatches e)) :
    mkReportRow (table.filter (departureMatches e)) rec
      = { name := rec.travelerName, homeCity := rec.departureCityName,
          arrivalTime := formatTravelTime rec.arrivalDate rec.arrivalTime,
          arrivalFlight := rec.airlineCode ++ " " ++ rec.flightNumber,
          departureTime :=
            formatTravelTime dep.departureDate dep.departureTime,
          departureFlight := dep.airlineCode ++ " " ++ dep.flightNumber }
    ∧ mkReportRow (table.filter (departureMatches e)) rec
        ∈ matchEvent e table := by
  have hfilter : (table.filter (departureMatches e)).filter
      (fun d => d.travelerName == rec.travelerName)
      = dep :: post.filter (fun d => d.travelerName == rec.travelerName) := by
    rw [hsplit, List.filter_append, filter_eq_nil_of_false _ _ hpre]
    simp [hdep]
  constructor
  · simp only [mkReportRow]
    rw [hfilter]
  · rw [matchEvent_eq_map]
    exact List.mem_map.mpr ⟨rec, hrec, rfl⟩

/-- C5 witness: Jane has two qualifying return rows; the earlier one in
table order (AA 200) wins over the later one (UA 300), and a
non-matching departure before both is skipped. -/
theorem pairing_first_name_match_witness :
    mkReportRow (mainTable.filter (departureMatches evMain)) recJaneArr
      = { name := recJaneArr.travelerName,
          homeCity := recJaneArr.departureCityName,
          arrivalTime :=
            formatTravelTime recJaneArr.arrivalDate recJaneArr.arrivalTime,
          arrivalFlight :=
            recJaneArr.airlineCode ++ " " ++ recJaneArr.flightNumber,
          departureTime :=
            formatTravelTime recJaneDep.departureDate
              recJaneDep.departureTime,
          departureFlight :=
            recJaneDep.airlineCode ++ " " ++ recJaneDep.flightNumber }
    ∧ mkReportRow (mainTable.filter (departureMatches evMain)) recJaneArr
        ∈ matchEvent evMain mainTable :=
  pairing_first_name_match evMain mainTable recJaneArr
    [recBobDep] [recJaneDep2] recJaneDep
    (by decide) (by decide) (by decide) (by decide)

/-- C6: an arrival whose traveler name matches nothing in the filtered
departures yields the `No Return Flight` / `-` sentinels, and its row
is produced. -/
theorem no_return_sentinels (e : EventDefinition)
    (table : List TravelRecord) (rec : TravelRecord)
    (hrec : rec ∈ table.filter (arrivalMatches e))
    (hnone : ∀ d ∈ table.filter (departureMatches e),
      (d.travelerName == rec.travelerName) = false) :
    (mkReportRow (table.filter (departureMatches e)) rec).departureTime
        = "No Return Flight"
    ∧ (mkReportRow (table.filter (departureMatches e)) rec).departureFlight
        = "-"
    ∧ mkReportRow (table.filter (departureMatches e)) rec
        ∈ matchEvent e table := by
  have hfilter : (table.filter (departureMatches e)).filter
      (fun d => d.travelerName == rec.travelerName) = [] :=
    filter_eq_nil_of_false _ _ hnone
  refine ⟨?_, ?_, ?_⟩
  · simp only [mkReportRow]
    rw [hfilter]
  · simp only [mkReportRow]
    rw [hfilter]
  · rw [matchEvent_eq_map]
    exact List.mem_map.mpr ⟨rec, hrec, rfl⟩

/-- C6 witness: John Smith arrives with no matching return record. -/
theorem no_return_sentinels_witness :
    (mkReportRow (mainTable.filter (departureMatches evMain))
        recJohnArr).departureTime = "No Return Flight"
    ∧ (mkReportRow (mainTable.filter (departureMatches evMain))
        recJohnArr).departureFlight = "-"
    ∧ mkReportRow (mainTable.filter (departureMatches evMain)) recJohnArr
        ∈ matchEvent evMain mainTable :=
  no_return_sentinels evMain mainTable recJohnArr (by decide) (by decide)

/-- C7: `format_travel_time` is parse-or-fallback and total.  When the
date part combined with the time string parses, the result is
`<Weekday> <Month> <Day> <hour>:<minute> <am/pm>` with zero-padded
12-hour clock and lower-cased meridiem; otherwise it is the raw date
and time values joined by a single space. -/
theorem formatTravelTime_parse_or_fallback (dv : DateTime) (tv : String) :
    (∀ dt, pdParseDateTime (dateToStr dv.date ++ " " ++ tv) = some dt →
      formatTravelTime dv tv
        = weekdayName dt.date ++ " " ++ monthName dt.date.month ++ " "
          ++ pad2 dt.date.day ++ " " ++ pad2 (hour12 dt.hour) ++ ":"
          ++ pad2 dt.minute ++ " " ++ meridiemLower dt.hour)
    ∧ (pdParseDateTime (dateToStr dv.date ++ " " ++ tv) = none →
      formatTravelTime dv tv = dateTimeToStr dv ++ " " ++ tv) := by
  constructor
  · intro dt h
    rw [formatTravelTime_eq, h]
    rfl
  · intro h
    rw [formatTravelTime_eq, h]

/-- C7 witness: the worked example (2026-03-19 with "14:05" formats,
"garbage" falls back verbatim). -/
theorem formatTravelTime_parse_or_fallback_witness :
    formatTravelTime ⟨⟨2026, 3, 19⟩, 0, 0, 0⟩ "14:05"
        = "Thursday March 19 02:05 pm"
    ∧ formatTravelTime ⟨⟨2026, 3, 19⟩, 0, 0, 0⟩ "garbage"
        = "2026-03-19 00:00:00 garbage" := by
  constructor
  · exact ((formatTravelTime_parse_or_fallback ⟨⟨2026, 3, 19⟩, 0, 0, 0⟩
      "14:05").1 ⟨⟨2026, 3, 19⟩, 14, 5, 0⟩ rfl).trans (by rfl)
  · exact ((formatTravelTime_parse_or_fallback ⟨⟨2026, 3, 19⟩, 0, 0, 0⟩
      "garbage").2 rfl).trans (by rfl)

/-- C8 counterexample: the CSV scan is a prefix test on the raw line,
not first-cell equality.  With a first line starting `Traveler Names`
the loader selects line 0, whose first cell is not `Traveler Name`,
even though line 1's first cell is exactly `Traveler Name`. -/
theorem csvHeader_prefix_not_first_cell :
    findCsvHeader ["Traveler Names,x", "Traveler Name,y"] = some 0
    ∧ csvFirstCellSpec "Traveler Names,x" ≠ "Traveler Name"
    ∧ csvFirstCellSpec "Traveler Name,y" = "Traveler Name" := by
  refine ⟨rfl, ?_, rfl⟩
  decide

/-- C8 (amended): the CSV loader selects the first line that starts
with the literal `Traveler Name` (a prefix test on the raw line); the
xlsx loader selects the first row whose first cell equals
`Traveler Name` exactly.  In both formats all rows above the header are
discarded, for any number of banner rows, and when no such row exists
the load halts with the header-not-found error. -/
theorem header_scan_amended (lines : List String)
    (rows : List (List String)) :
    (∀ i, findCsvHeader lines = some i →
      strStartsWith (lines.getD i "") "Traveler Name" = true
      ∧ (∀ k, k < i →
          strStartsWith (lines.getD k "") "Traveler Name" = false)
      ∧ loadCsv lines = Except.ok (i, lines.drop i))
    ∧ (findCsvHeader lines = none →
      (∀ l ∈ lines, strStartsWith l "Traveler Name" = false)
      ∧ loadCsv lines
          = Except.error "Could not find 'Traveler Name' in the CSV.")
    ∧ (∀ i, findXlsxHeader rows = some i →
      (rows.getD i []).headD "" = "Traveler Name"
      ∧ (∀ k, k < i → (rows.getD k []).headD "" ≠ "Traveler Name")
      ∧ loadXlsx rows = Except.ok (i, rows.drop i))
    ∧ (findXlsxHeader rows = none →
      (∀ row ∈ rows, row.headD "" ≠ "Traveler Name")
      ∧ loadXlsx rows
          = Except.error "Could not find 'Traveler Name' in Excel.") := by
  refine ⟨?_, ?_, ?_, ?_⟩
  · intro i h
    obtain ⟨hlen, hyes, hbelow⟩ := findHeaderIdx_eq_some _ "" lines i h
    exact ⟨hyes, hbelow, by simp [loadCsv, h]⟩
  · intro h
    exact ⟨findHeaderIdx_eq_none _ lines h, by simp [loadCsv, h]⟩
  · intro i h
    obtain ⟨hlen, hyes, hbelow⟩ :=
      findHeaderIdx_eq_some _ ([] : List String) rows i h
    refine ⟨by simpa using hyes, ?_, by simp [loadXlsx, h]⟩
    intro k hk
    simpa using hbelow k hk
  · intro h
    refine ⟨?_, by simp [loadXlsx, h]⟩
    intro row hrow
    simpa using findHeaderIdx_eq_none _ rows h row hrow

/-- C8 witness: both loaders find the header after two banner rows, and
a headerless CSV halts with the error. -/
theorem header_scan_amended_witness :
    loadCsv linesOk = Except.ok (2, linesOk.drop 2)
    ∧ loadXlsx xlsxOk = Except.ok (2, xlsxOk.drop 2)
    ∧ loadCsv ["no header here"]
        = Except.error "Could not find 'Traveler Name' in the CSV." :=
  ⟨((header_scan_amended linesOk xlsxOk).1 2 rfl).2.2,
    ((header_scan_amended linesOk xlsxOk).2.2.1 2 rfl).2.2,
    ((header_scan_amended ["no header here"] []).2.1 rfl).2⟩

/-- C9: the rows an event emits are exactly the arrivals-filter result
mapped through the pairing step, in that order, and the arrivals-filter
result is an order-preserving sublist of the original table — no
secondary sort anywhere. -/
theorem output_order_follows_arrivals (e : EventDefinition)
    (table : List TravelRecord) :
    matchEvent e table
      = (table.filter (arrivalMatches e)).map
          (mkReportRow (table.filter (departureMatches e)))
    ∧ List.Sublist (table.filter (arrivalMatches e)) table :=
  ⟨matchEvent_eq_map e table, List.filter_sublist table⟩

/-- C10: two qualifying arrivals sharing a traveler name receive the
same departure data — the lookup depends only on the name. -/
theorem duplicate_name_same_departure (e : EventDefinition)
    (table : List TravelRecord) (rec1 rec2 : TravelRecord)
    (h1 : rec1 ∈ table.filter (arrivalMatches e))
    (h2 : rec2 ∈ table.filter (arrivalMatches e))
    (hname : rec1.travelerName = rec2.travelerName) :
    (mkReportRow (table.filter (departureMatches e)) rec1).departureTime
      = (mkReportRow (table.filter (departureMatches e)) rec2).departureTime
    ∧ (mkReportRow (table.filter (departureMatches e)) rec1).departureFlight
      = (mkReportRow (table.filter (departureMatches e))
          rec2).departureFlight := by
  simp only [mkReportRow, hname]
  cases (table.filter (departureMatches e)).filter
      (fun d => d.travelerName == rec2.travelerName) with
  | nil => exact ⟨rfl, rfl⟩
  | cons d ds => exact ⟨rfl, rfl⟩

/-- C10 witness: Jane's two qualifying arrivals in the duplicate-name
table carry identical departure values. -/
theorem duplicate_name_same_departure_witness :
    (mkReportRow (dupTable.filter (departureMatches evMain))
        recJaneArr).departureTime
      = (mkReportRow (dupTable.filter (departureMatches evMain))
          recJaneArr2).departureTime
    ∧ (mkReportRow (dupTable.filter (departureMatches evMain))
        recJaneArr).departureFlight
      = (mkReportRow (dupTable.filter (departureMatches evMain))
          recJaneArr2).departureFlight :=
  duplicate_name_same_departure evMain dupTable recJaneArr recJaneArr2
    (by decide) (by decide) rfl

end TravelSorter
